import Mathlib

/-!
Shallow embedding of the multisig DAO wallet program
(programs/multisig-dao-wallet/src/lib.rs) and verification of its
specification claims.

Modelling conventions:
- Solana public keys are opaque identities; we model `Pubkey` as `Nat`.
- `u8`/`u64` values are modelled as `Nat`, `i64` values as `Int`.
  The one place where `u8` wrap-around is semantically visible is the
  required-threshold computation in `approve_proposal`
  (`threshold + 1` and `threshold - 1` on a `u8`), which we model with
  explicit arithmetic modulo 256 (`requiredThreshold`).
- Each Anchor instruction handler is a pure function from its inputs and the
  accounts it reads or mutates to `Except MultisigError` of the new state of
  the account(s) it mutates.  `require!(cond, err)` becomes
  `if ¬ cond then .error err else ...`, in the source's order.  An error
  result commits no state change (Anchor aborts the transaction), which the
  embedding reflects by returning no state on the error path.
- `Clock::get()?.unix_timestamp` becomes an explicit `now : Int` parameter.
- The Anchor account-context declarations (PDA seeds, bumps, space, payer)
  are the storage layer, outside the embedded core; the `bump` fields are
  likewise omitted.
-/

/-- Opaque on-chain identity (`Pubkey`). -/
abbrev Pubkey := Nat

/-- Member roles, from `enum MemberRole`. -/
inductive MemberRole
  | Admin
  | Treasurer
  | Member
  deriving DecidableEq

/-- Member record, from `struct Member`. -/
structure Member where
  address : Pubkey
  role : MemberRole
  delegate : Option Pubkey
  is_active : Bool
  deriving DecidableEq

/-- Account-reference descriptor, from `struct AccountMeta`. -/
structure AccountMeta where
  pubkey : Pubkey
  is_signer : Bool
  is_writable : Bool
  deriving DecidableEq

/-- Opaque instruction payload, from `struct InstructionData`. -/
structure InstructionData where
  program_id : Pubkey
  accounts : List AccountMeta
  data : List Nat
  deriving DecidableEq

/-- Wallet configuration account, from `struct WalletConfig`
(the `bump` storage field is omitted). -/
structure WalletConfig where
  authority : Pubkey
  signers : List Pubkey
  threshold : Nat
  proposal_timeout : Int
  spending_limit : Nat
  spending_period : Int
  spending_used : Nat
  last_spending_reset : Int
  is_active : Bool
  members : List Member
  proposal_count : Nat
  deriving DecidableEq

/-- Proposal categories, from `enum ProposalCategory`. -/
inductive ProposalCategory
  | Regular
  | Admin
  | Emergency
  deriving DecidableEq

/-- Proposal lifecycle states, from `enum ProposalStatus`. -/
inductive ProposalStatus
  | Pending
  | Approved
  | Rejected
  | Executed
  | Expired
  deriving DecidableEq

/-- Proposal account, from `struct Proposal` (the `bump` storage field is
omitted). -/
structure Proposal where
  wallet : Pubkey
  proposer : Pubkey
  description : String
  category : ProposalCategory
  instructions : List InstructionData
  expiration : Int
  status : ProposalStatus
  approvals : List Pubkey
  rejections : List Pubkey
  created_at : Int
  executed_at : Option Int
  id : Nat
  deriving DecidableEq

/-- Error taxonomy, from `enum MultisigError`. -/
inductive MultisigError
  | InvalidThreshold
  | InvalidTimeout
  | InvalidSpendingLimit
  | InvalidExpiration
  | WalletInactive
  | ProposalNotPending
  | ProposalNotApproved
  | ProposalExpired
  | NotAuthorized
  | AlreadyApproved
  | MemberNotFound
  deriving DecidableEq

/-- Embedding of `initialize_wallet` (lib.rs lines 14-55).  Checks, in source
order: `signers.len() >= threshold` (InvalidThreshold), `threshold > 0`
(InvalidThreshold), `proposal_timeout > 0` (InvalidTimeout),
`spending_limit > 0` (InvalidSpendingLimit); then builds the configuration
with one `Member` record per signer (role `Member`, no delegate, active),
zeroed spending accumulator, `last_spending_reset = now`, `is_active = true`
and `proposal_count = 0`. -/
def initWallet (authority : Pubkey) (signers : List Pubkey) (threshold : Nat)
    (proposal_timeout : Int) (spending_limit : Nat) (spending_period : Int)
    (now : Int) : Except MultisigError WalletConfig :=
  if ¬ (threshold ≤ signers.length) then .error .InvalidThreshold
  else if ¬ (0 < threshold) then .error .InvalidThreshold
  else if ¬ (0 < proposal_timeout) then .error .InvalidTimeout
  else if ¬ (0 < spending_limit) then .error .InvalidSpendingLimit
  else .ok
    { authority := authority
      signers := signers
      threshold := threshold
      proposal_timeout := proposal_timeout
      spending_limit := spending_limit
      spending_period := spending_period
      spending_used := 0
      last_spending_reset := now
      is_active := true
      members := signers.map (fun s =>
        { address := s, role := MemberRole.Member, delegate := none,
          is_active := true })
      proposal_count := 0 }

/-- Embedding of `add_proposal` (lib.rs lines 58-91).  Returns the updated
wallet configuration (its `proposal_count` incremented) and the freshly
initialized proposal.  `wallet_key` is the address of the wallet account
(`ctx.accounts.wallet_config.key()`). -/
def add_proposal (w : WalletConfig) (wallet_key proposer : Pubkey)
    (description : String) (category : ProposalCategory)
    (instructions : List InstructionData) (expiration : Int) (now : Int) :
    Except MultisigError (WalletConfig × Proposal) :=
  if ¬ w.is_active then .error .WalletInactive
  else if ¬ (now < expiration) then .error .InvalidExpiration
  else .ok
    ({ w with proposal_count := w.proposal_count + 1 },
     { wallet := wallet_key
       proposer := proposer
       description := description
       category := category
       instructions := instructions
       expiration := expiration
       status := ProposalStatus.Pending
       approvals := []
       rejections := []
       created_at := now
       executed_at := none
       id := w.proposal_count })

/-- Embedding of the category-dependent required threshold computed inside
`approve_proposal` (lib.rs lines 113-117).  The source computes on a `u8`:
`Regular => threshold`, `Admin => threshold + 1`,
`Emergency => threshold - 1`; the `+ 1` and `- 1` are `u8` operations, so we
model them with wrap-around modulo 256 (`threshold + 255` is `threshold - 1`
modulo 256). -/
def requiredThreshold (category : ProposalCategory) (threshold : Nat) : Nat :=
  match category with
  | ProposalCategory.Regular => threshold
  | ProposalCategory.Admin => (threshold + 1) % 256
  | ProposalCategory.Emergency => (threshold + 255) % 256

/-- Embedding of `approve_proposal` (lib.rs lines 94-128).  Checks, in source
order: wallet active, status Pending, `expiration > now`, approver a current
signer, approver not already in `approvals`; then appends the approver and
sets the status to Approved exactly when the new approval count reaches
`requiredThreshold`.  The wallet configuration is read-only here. -/
def approve_proposal (w : WalletConfig) (p : Proposal) (approver : Pubkey)
    (now : Int) : Except MultisigError Proposal :=
  if ¬ w.is_active then .error .WalletInactive
  else if ¬ (p.status = ProposalStatus.Pending) then .error .ProposalNotPending
  else if ¬ (now < p.expiration) then .error .ProposalExpired
  else if ¬ (approver ∈ w.signers) then .error .NotAuthorized
  else if approver ∈ p.approvals then .error .AlreadyApproved
  else
    let approvals := p.approvals ++ [approver]
    if requiredThreshold p.category w.threshold ≤ approvals.length then
      .ok { p with approvals := approvals, status := ProposalStatus.Approved }
    else
      .ok { p with approvals := approvals }

/-- Embedding of `execute_proposal` (lib.rs lines 131-153).  Checks, in source
order: wallet active, status Approved, `expiration > now`; the instruction
loop only logs, so the state effect is setting the status to Executed and
stamping `executed_at = now`. -/
def execute_proposal (w : WalletConfig) (p : Proposal) (now : Int) :
    Except MultisigError Proposal :=
  if ¬ w.is_active then .error .WalletInactive
  else if ¬ (p.status = ProposalStatus.Approved) then .error .ProposalNotApproved
  else if ¬ (now < p.expiration) then .error .ProposalExpired
  else .ok { p with status := ProposalStatus.Executed, executed_at := some now }

/-- Embedding of `update_signers` (lib.rs lines 156-179).  Checks, in source
order: wallet active, `new_signers.len() >= new_threshold` (InvalidThreshold),
`new_threshold > 0` (InvalidThreshold), approver a current signer
(NotAuthorized), approver equals the authority (NotAuthorized); then replaces
`signers` and `threshold` and nothing else. -/
def update_signers (w : WalletConfig) (approver : Pubkey)
    (new_signers : List Pubkey) (new_threshold : Nat) :
    Except MultisigError WalletConfig :=
  if ¬ w.is_active then .error .WalletInactive
  else if ¬ (new_threshold ≤ new_signers.length) then .error .InvalidThreshold
  else if ¬ (0 < new_threshold) then .error .InvalidThreshold
  else if ¬ (approver ∈ w.signers) then .error .NotAuthorized
  else if ¬ (w.authority = approver) then .error .NotAuthorized
  else .ok { w with signers := new_signers, threshold := new_threshold }

/-- Embedding of `set_spending_limits` (lib.rs lines 182-200).  Checks, in
source order: wallet active, approver equals the authority; then installs the
new limit and period unconditionally (no validation of `new_limit`), zeroes
`spending_used` and stamps `last_spending_reset = now`. -/
def set_spending_limits (w : WalletConfig) (approver : Pubkey)
    (new_limit : Nat) (new_period : Int) (now : Int) :
    Except MultisigError WalletConfig :=
  if ¬ w.is_active then .error .WalletInactive
  else if ¬ (w.authority = approver) then .error .NotAuthorized
  else .ok { w with spending_limit := new_limit, spending_period := new_period,
                    spending_used := 0, last_spending_reset := now }

/-- Embedding of the member-scan loop inside `delegate_vote` (lib.rs lines
214-220): find the first member whose `address` equals the delegator, set its
`delegate` field to the given delegate and stop; `none` when no member
matches. -/
def setDelegate (ms : List Member) (delegator delegate : Pubkey) :
    Option (List Member) :=
  match ms with
  | [] => none
  | m :: rest =>
    if m.address = delegator then
      some ({ m with delegate := some delegate } :: rest)
    else
      (setDelegate rest delegator delegate).map (fun l => m :: l)

/-- Embedding of `delegate_vote` (lib.rs lines 203-223).  Checks, in source
order: wallet active, delegator a current signer (NotAuthorized); then updates
the first matching member record, or fails with MemberNotFound when the scan
finds none. -/
def delegate_vote (w : WalletConfig) (delegator delegate : Pubkey) :
    Except MultisigError WalletConfig :=
  if ¬ w.is_active then .error .WalletInactive
  else if ¬ (delegator ∈ w.signers) then .error .NotAuthorized
  else
    match setDelegate w.members delegator delegate with
    | some ms => .ok { w with members := ms }
    | none => .error .MemberNotFound

/-- Embedding of `emergency_override` (lib.rs lines 226-243).  Checks, in
source order: wallet active, caller equals the authority; the instruction loop
only logs, so no embedded state changes. -/
def emergency_override (w : WalletConfig) (caller : Pubkey)
    (_instructions : List InstructionData) : Except MultisigError Unit :=
  if ¬ w.is_active then .error .WalletInactive
  else if ¬ (w.authority = caller) then .error .NotAuthorized
  else .ok ()

/-- Configuration invariants from spec section 3: `threshold ≥ 1`,
`threshold ≤ |signers|`, `spending_limit > 0`, `proposal_timeout > 0`. -/
def WalletInv (w : WalletConfig) : Prop :=
  1 ≤ w.threshold ∧ w.threshold ≤ w.signers.length ∧
  0 < w.spending_limit ∧ 0 < w.proposal_timeout

instance (w : WalletConfig) : Decidable (WalletInv w) := by
  unfold WalletInv
  infer_instance

/-- First member record with the given address, returning its delegate field;
used to observe the effect of `delegate_vote` on the members list. -/
def findDelegate (ms : List Member) (a : Pubkey) : Option (Option Pubkey) :=
  match ms with
  | [] => none
  | m :: rest => if m.address = a then some m.delegate else findDelegate rest a

/-- Decidable equality on operation results, so that concrete runs of the
embedded operations can be checked by `decide`. -/
instance {ε α : Type} [DecidableEq ε] [DecidableEq α] : DecidableEq (Except ε α) := fun a b =>
  match a, b with
  | .ok x, .ok y =>
    if h : x = y then .isTrue (h ▸ rfl) else .isFalse (fun hc => h (Except.ok.inj hc))
  | .error x, .error y =>
    if h : x = y then .isTrue (h ▸ rfl) else .isFalse (fun hc => h (Except.error.inj hc))
  | .ok _, .error _ => .isFalse (fun hc => Except.noConfusion hc)
  | .error _, .ok _ => .isFalse (fun hc => Except.noConfusion hc)

/-- Concrete wallet used by the witnesses: authority 1, signers 1, 2, 3,
threshold 2, with the member records `initialize_wallet` would build. -/
def wEx : WalletConfig :=
  { authority := 1
    signers := [1, 2, 3]
    threshold := 2
    proposal_timeout := 3600
    spending_limit := 1000
    spending_period := 86400
    spending_used := 0
    last_spending_reset := 0
    is_active := true
    members :=
      [{ address := 1, role := MemberRole.Member, delegate := none, is_active := true },
       { address := 2, role := MemberRole.Member, delegate := none, is_active := true },
       { address := 3, role := MemberRole.Member, delegate := none, is_active := true }]
    proposal_count := 0 }

/-- Concrete pending Regular proposal on `wEx` with one approval already
recorded, used by witnesses. -/
def pEx : Proposal :=
  { wallet := 0
    proposer := 1
    description := ""
    category := ProposalCategory.Regular
    instructions := []
    expiration := 100
    status := ProposalStatus.Pending
    approvals := [2]
    rejections := []
    created_at := 0
    executed_at := none
    id := 0 }

/-- C1: on an active wallet, for every Pending, unexpired proposal, an
approval by a current signer not already in `approvals` appends the caller to
`approvals` and sets the status to Approved if and only if the new approval
count is at least the category's required threshold, and otherwise leaves it
Pending; the required threshold is `threshold` for Regular and
`threshold + 1` for Admin (absent `u8` wrap-around). -/
theorem approve_pending_appends_and_gates (w : WalletConfig) (p : Proposal)
    (a : Pubkey) (now : Int)
    (hw : w.is_active = true) (hp : p.status = ProposalStatus.Pending)
    (he : now < p.expiration) (hs : a ∈ w.signers) (hna : a ∉ p.approvals) :
    approve_proposal w p a now =
      .ok { p with
            approvals := p.approvals ++ [a],
            status :=
              if requiredThreshold p.category w.threshold ≤ p.approvals.length + 1
              then ProposalStatus.Approved else ProposalStatus.Pending } ∧
    requiredThreshold ProposalCategory.Regular w.threshold = w.threshold ∧
    (w.threshold ≤ 254 →
      requiredThreshold ProposalCategory.Admin w.threshold = w.threshold + 1) := by
  refine ⟨?_, by simp [requiredThreshold], fun hle => ?_⟩
  · simp only [approve_proposal, hw, hp, he, hs, hna, not_true, not_false_eq_true,
      if_false, if_true, ite_false, ite_true]
    simp only [List.length_append, List.length_cons, List.length_nil]
    split_ifs with hcond
    · rfl
    · simp [hp]
  · simp only [requiredThreshold]
    omega

/-- Witness for C1: on `wEx` (threshold 2) and `pEx` (Regular, one approval),
signer 3's approval is appended and the threshold gate fires. -/
theorem approve_pending_appends_and_gates_witness :
    (wEx.is_active = true ∧ pEx.status = ProposalStatus.Pending ∧
     (0 : Int) < pEx.expiration ∧ 3 ∈ wEx.signers ∧ 3 ∉ pEx.approvals) ∧
    (approve_proposal wEx pEx 3 0 =
      .ok { pEx with
            approvals := pEx.approvals ++ [3],
            status :=
              if requiredThreshold pEx.category wEx.threshold ≤ pEx.approvals.length + 1
              then ProposalStatus.Approved else ProposalStatus.Pending } ∧
     requiredThreshold ProposalCategory.Regular wEx.threshold = wEx.threshold ∧
     (wEx.threshold ≤ 254 →
       requiredThreshold ProposalCategory.Admin wEx.threshold = wEx.threshold + 1)) :=
  ⟨⟨by decide, by decide, by decide, by decide, by decide⟩,
   approve_pending_appends_and_gates wEx pEx 3 0 (by decide) (by decide)
     (by decide) (by decide) (by decide)⟩

/-- C2 counterexample: at `threshold = 1` the Emergency required approval
count computed by `approve_proposal` is `0`, not the claimed floor of `1`. -/
theorem requiredThreshold_emergency_cex :
    requiredThreshold ProposalCategory.Emergency 1 = 0 ∧
    ¬ (1 ≤ requiredThreshold ProposalCategory.Emergency 1) := by
  decide

/-- C2 amended: for every Emergency-category proposal, the required approval
count computed by `approve_proposal` equals `threshold - 1` with no floor:
in particular it is `0` when `threshold = 1`. -/
theorem requiredThreshold_emergency_sub (t : Nat) (h1 : 1 ≤ t) (h2 : t ≤ 255) :
    requiredThreshold ProposalCategory.Emergency t = t - 1 := by
  simp only [requiredThreshold]
  omega

/-- Witness for the amended C2 at `threshold = 2`. -/
theorem requiredThreshold_emergency_sub_witness :
    (1 ≤ 2 ∧ 2 ≤ 255) ∧ requiredThreshold ProposalCategory.Emergency 2 = 2 - 1 :=
  ⟨by decide, requiredThreshold_emergency_sub 2 (by decide) (by decide)⟩

/-- C3: `initialize_wallet` succeeds exactly when `1 ≤ threshold ≤ |signers|`,
`proposal_timeout > 0` and `spending_limit > 0` (`spending_period` is never
constrained), and each violated condition produces its respective error under
the source's fail-fast check order: the threshold checks run first, then the
timeout check, then the spending-limit check. -/
theorem initWallet_ok_iff (a : Pubkey) (s : List Pubkey) (t : Nat)
    (pt : Int) (sl : Nat) (sp now : Int) :
    ((∃ w, initWallet a s t pt sl sp now = .ok w) ↔
      (1 ≤ t ∧ t ≤ s.length ∧ 0 < pt ∧ 0 < sl)) ∧
    (initWallet a s t pt sl sp now = .error MultisigError.InvalidThreshold ↔
      (t = 0 ∨ s.length < t)) ∧
    (initWallet a s t pt sl sp now = .error MultisigError.InvalidTimeout ↔
      (1 ≤ t ∧ t ≤ s.length ∧ pt ≤ 0)) ∧
    (initWallet a s t pt sl sp now = .error MultisigError.InvalidSpendingLimit ↔
      (1 ≤ t ∧ t ≤ s.length ∧ 0 < pt ∧ sl = 0)) := by
  unfold initWallet
  split_ifs with h1 h2 h3 h4 <;> simp_all <;> omega

/-- Witness for C3: a valid configuration is accepted. -/
theorem initWallet_ok_iff_witness :
    ∃ w, initWallet 1 [1, 2, 3] 2 3600 1000 86400 0 = .ok w :=
  (initWallet_ok_iff 1 [1, 2, 3] 2 3600 1000 86400 0).1.mpr
    ⟨by decide, by decide, by decide, by decide⟩

/-- Wallet obtained from `wEx` by `set_spending_limits` with new limit 0,
used by the C4 counterexample. -/
def wExZero : WalletConfig :=
  { wEx with spending_limit := 0, spending_period := 86400,
             spending_used := 0, last_spending_reset := 5 }

/-- C4 counterexample: `set_spending_limits` does not re-validate the
configuration invariants — called by the authority with `new_limit = 0` on an
invariant-satisfying wallet it succeeds and leaves `spending_limit = 0`. -/
theorem spending_limits_skip_validation_cex :
    WalletInv wEx ∧
    set_spending_limits wEx 1 0 86400 5 = .ok wExZero ∧
    ¬ WalletInv wExZero := by
  decide

/-- C4 amended: the configuration invariants hold after a successful creation;
`update_signers` re-validates the threshold invariants before committing, and
`add_proposal` and `delegate_vote` leave the constrained fields unchanged;
`set_spending_limits`, however, performs no validation and preserves the
invariants only when the new limit is positive. -/
theorem walletInv_preservation :
    (∀ a s t pt sl sp now w, initWallet a s t pt sl sp now = .ok w →
      WalletInv w) ∧
    (∀ w a ns nt w2, WalletInv w → update_signers w a ns nt = .ok w2 →
      WalletInv w2) ∧
    (∀ w wk pr d c ins e now w2 p, WalletInv w →
      add_proposal w wk pr d c ins e now = .ok (w2, p) → WalletInv w2) ∧
    (∀ w dlg dle w2, WalletInv w → delegate_vote w dlg dle = .ok w2 →
      WalletInv w2) ∧
    (∀ w a nl np now w2, WalletInv w → 0 < nl →
      set_spending_limits w a nl np now = .ok w2 → WalletInv w2) := by
  refine ⟨?_, ?_, ?_, ?_, ?_⟩
  · intro a s t pt sl sp now w h
    unfold initWallet at h
    split_ifs at h with g1 g2 g3 g4
    rw [Except.ok.injEq] at h
    subst h
    unfold WalletInv
    simp only [not_not] at g1 g2 g3 g4
    exact ⟨g2, g1, g4, g3⟩
  · intro w a ns nt w2 hInv h
    unfold update_signers at h
    unfold WalletInv at hInv ⊢
    split_ifs at h with g1 g2 g3 g4 g5
    rw [Except.ok.injEq] at h
    subst h
    simp only [not_not] at g2 g3
    exact ⟨g3, g2, hInv.2.2.1, hInv.2.2.2⟩
  · intro w wk pr d c ins e now w2 p hInv h
    unfold add_proposal at h
    unfold WalletInv at hInv ⊢
    split_ifs at h with g1 g2
    rw [Except.ok.injEq, Prod.mk.injEq] at h
    obtain ⟨hw2, hp2⟩ := h
    subst hw2
    exact hInv
  · intro w dlg dle w2 hInv h
    unfold delegate_vote at h
    unfold WalletInv at hInv ⊢
    split_ifs at h with g1 g2
    cases hms : setDelegate w.members dlg dle with
    | none => exact Except.noConfusion (by simpa only [hms] using h)
    | some ms =>
      simp only [hms, Except.ok.injEq] at h
      subst h
      exact hInv
  · intro w a nl np now w2 hInv hnl h
    unfold set_spending_limits at h
    unfold WalletInv at hInv ⊢
    split_ifs at h with g1 g2
    rw [Except.ok.injEq] at h
    subst h
    exact ⟨hInv.1, hInv.2.1, hnl, hInv.2.2.2⟩

/-- Wallet obtained from `wEx` by a valid `set_spending_limits`, used by the
C4 witness. -/
def wExSet : WalletConfig :=
  { wEx with spending_limit := 500, spending_period := 7200,
             spending_used := 0, last_spending_reset := 5 }

/-- Witness for the amended C4: with a positive new limit the invariants
survive `set_spending_limits`. -/
theorem walletInv_preservation_witness :
    WalletInv wEx ∧ 0 < 500 ∧
    set_spending_limits wEx 1 500 7200 5 = .ok wExSet ∧ WalletInv wExSet :=
  ⟨by decide, by decide, by decide,
   walletInv_preservation.2.2.2.2 wEx 1 500 7200 5 wExSet
     (by decide) (by decide) (by decide)⟩

/-- Pending proposal whose recorded approval 9 is not a signer of `wEx`
(the state an `update_signers` that removed signer 9 would leave behind),
used by the C5 counterexample. -/
def pOut : Proposal := { pEx with approvals := [9] }

/-- C5 counterexample: caller 9 is in `approvals` of the Pending, unexpired
proposal `pOut`, yet `approve_proposal` fails with NotAuthorized (the signer
check precedes the duplicate-approval check), not AlreadyApproved. -/
theorem approve_already_approved_cex :
    pOut.status = ProposalStatus.Pending ∧ (0 : Int) < pOut.expiration ∧
    (9 : Pubkey) ∈ pOut.approvals ∧ wEx.is_active = true ∧
    approve_proposal wEx pOut 9 0 = .error MultisigError.NotAuthorized ∧
    approve_proposal wEx pOut 9 0 ≠ .error MultisigError.AlreadyApproved := by
  decide

/-- C5 amended: on an active wallet, for every Pending, unexpired proposal and
every caller who is a current signer and is already contained in `approvals`,
`approve_proposal` fails with AlreadyApproved; the failure commits no state
(the error path returns before any mutation). -/
theorem approve_already_approved (w : WalletConfig) (p : Proposal)
    (a : Pubkey) (now : Int)
    (hw : w.is_active = true) (hp : p.status = ProposalStatus.Pending)
    (he : now < p.expiration) (hs : a ∈ w.signers) (ha : a ∈ p.approvals) :
    approve_proposal w p a now = .error MultisigError.AlreadyApproved := by
  simp [approve_proposal, hw, hp, he, hs, ha]

/-- Witness for the amended C5: signer 2 already approved `pEx`. -/
theorem approve_already_approved_witness :
    (wEx.is_active = true ∧ pEx.status = ProposalStatus.Pending ∧
     (0 : Int) < pEx.expiration ∧ 2 ∈ wEx.signers ∧ 2 ∈ pEx.approvals) ∧
    approve_proposal wEx pEx 2 0 = .error MultisigError.AlreadyApproved :=
  ⟨⟨by decide, by decide, by decide, by decide, by decide⟩,
   approve_already_approved wEx pEx 2 0 (by decide) (by decide) (by decide)
     (by decide) (by decide)⟩

/-- Approved counterpart of `pEx`, used by the C6 witness. -/
def pApp : Proposal := { pEx with status := ProposalStatus.Approved, approvals := [2, 3] }

/-- C6: on an active wallet, `execute_proposal` fails with ProposalNotApproved
whenever the proposal status is not Approved (the error path commits nothing,
so `status` and `executed_at` are untouched), and when the status is Approved
and `expiration > now` it succeeds, setting the status to Executed and
`executed_at` to the current time. -/
theorem execute_status_gate (w : WalletConfig) (p : Proposal) (now : Int)
    (hw : w.is_active = true) :
    (p.status ≠ ProposalStatus.Approved →
      execute_proposal w p now = .error MultisigError.ProposalNotApproved) ∧
    (p.status = ProposalStatus.Approved → now < p.expiration →
      execute_proposal w p now =
        .ok { p with status := ProposalStatus.Executed,
                     executed_at := some now }) := by
  constructor
  · intro hs
    simp [execute_proposal, hw, hs]
  · intro hs he
    simp [execute_proposal, hw, hs, he]

/-- Witness for C6: executing the Approved `pApp` succeeds and stamps
`executed_at`; executing the Pending `pEx` fails with ProposalNotApproved. -/
theorem execute_status_gate_witness :
    (wEx.is_active = true ∧ pApp.status = ProposalStatus.Approved ∧
     (0 : Int) < pApp.expiration ∧ pEx.status ≠ ProposalStatus.Approved) ∧
    execute_proposal wEx pApp 0 =
      .ok { pApp with status := ProposalStatus.Executed,
                      executed_at := some 0 } ∧
    execute_proposal wEx pEx 0 = .error MultisigError.ProposalNotApproved :=
  ⟨⟨rfl, rfl, by decide, by decide⟩,
   (execute_status_gate wEx pApp 0 rfl).2 rfl (by decide),
   (execute_status_gate wEx pEx 0 rfl).1 (by decide)⟩

/-- Approved proposal already past its expiration, used for C7. -/
def pAppExp : Proposal :=
  { pEx with status := ProposalStatus.Approved, expiration := 5 }

/-- Pending proposal already past its expiration, used for C7. -/
def pPendExp : Proposal := { pEx with expiration := 5 }

/-- C7 counterexample: past expiration, `approve_proposal` on an Approved
proposal reports ProposalNotPending and `execute_proposal` on a Pending
proposal reports ProposalNotApproved — the status check runs before the
expiration check, so neither fails with ProposalExpired. -/
theorem expired_error_order_cex :
    pAppExp.expiration < 10 ∧ pPendExp.expiration < 10 ∧
    approve_proposal wEx pAppExp 3 10 = .error MultisigError.ProposalNotPending ∧
    approve_proposal wEx pAppExp 3 10 ≠ .error MultisigError.ProposalExpired ∧
    execute_proposal wEx pPendExp 10 = .error MultisigError.ProposalNotApproved ∧
    execute_proposal wEx pPendExp 10 ≠ .error MultisigError.ProposalExpired := by
  decide

/-- C7 amended: on an active wallet, for every current time strictly after the
proposal's expiration, `approve_proposal` on a Pending proposal fails with
ProposalExpired regardless of how many approvals it has, and
`execute_proposal` on an Approved proposal fails with ProposalExpired; the
error path commits nothing.  (For other statuses the status check fires
first.) -/
theorem expired_rejected (w : WalletConfig) (p : Proposal) (a : Pubkey)
    (now : Int) (hw : w.is_active = true) (he : p.expiration < now) :
    (p.status = ProposalStatus.Pending →
      approve_proposal w p a now = .error MultisigError.ProposalExpired) ∧
    (p.status = ProposalStatus.Approved →
      execute_proposal w p now = .error MultisigError.ProposalExpired) := by
  have hne : ¬ now < p.expiration := by omega
  constructor
  · intro hs
    simp [approve_proposal, hw, hs, hne]
  · intro hs
    simp [execute_proposal, hw, hs, hne]

/-- Witness for the amended C7 at time 10 on proposals expiring at 5. -/
theorem expired_rejected_witness :
    (wEx.is_active = true ∧ pPendExp.expiration < 10 ∧
     pPendExp.status = ProposalStatus.Pending ∧
     pAppExp.expiration < 10 ∧ pAppExp.status = ProposalStatus.Approved) ∧
    approve_proposal wEx pPendExp 3 10 = .error MultisigError.ProposalExpired ∧
    execute_proposal wEx pAppExp 10 = .error MultisigError.ProposalExpired :=
  ⟨⟨rfl, by decide, rfl, by decide, rfl⟩,
   (expired_rejected wEx pPendExp 3 10 rfl (by decide)).1 rfl,
   (expired_rejected wEx pAppExp 3 10 rfl (by decide)).2 rfl⟩

/-- C8 counterexample: signer 2 is not the authority of `wEx`, yet
`update_signers` called by 2 with an invalid new threshold fails with
InvalidThreshold, not NotAuthorized — the threshold validation runs before
the authorization checks. -/
theorem update_signers_invalid_args_cex :
    wEx.is_active = true ∧ (2 : Pubkey) ∈ wEx.signers ∧ wEx.authority ≠ 2 ∧
    update_signers wEx 2 [] 0 = .error MultisigError.InvalidThreshold ∧
    update_signers wEx 2 [] 0 ≠ .error MultisigError.NotAuthorized := by
  decide

/-- C8 amended: on an active wallet and given valid arguments
(`1 ≤ new_threshold ≤ |new_signers|`), `update_signers` fails with
NotAuthorized unless the caller is both a current signer and the authority —
in particular a current signer who is not the authority always fails — and on
success it replaces `signers` and `threshold` and leaves every other
configuration field, including `members`, unchanged. -/
theorem update_signers_auth (w : WalletConfig) (a : Pubkey)
    (ns : List Pubkey) (nt : Nat)
    (hw : w.is_active = true) (h1 : 0 < nt) (h2 : nt ≤ ns.length) :
    (¬ (a ∈ w.signers ∧ w.authority = a) →
      update_signers w a ns nt = .error MultisigError.NotAuthorized) ∧
    (a ∈ w.signers → w.authority = a →
      update_signers w a ns nt =
        .ok { w with signers := ns, threshold := nt }) := by
  constructor
  · intro hna
    by_cases hs : a ∈ w.signers
    · have hauth : ¬ (w.authority = a) := fun hc => hna ⟨hs, hc⟩
      simp [update_signers, hw, h1, h2, hs, hauth]
    · simp [update_signers, hw, h1, h2, hs]
  · intro hs hauth
    simp [update_signers, hw, h1, h2, hs, hauth]

/-- Witness for the amended C8: non-authority signer 2 is rejected with
NotAuthorized; the authority 1 replaces signers and threshold. -/
theorem update_signers_auth_witness :
    (wEx.is_active = true ∧ 0 < 1 ∧ 1 ≤ [1, 2].length ∧
     ¬ ((2 : Pubkey) ∈ wEx.signers ∧ wEx.authority = 2) ∧
     (1 : Pubkey) ∈ wEx.signers ∧ wEx.authority = 1) ∧
    update_signers wEx 2 [1, 2] 1 = .error MultisigError.NotAuthorized ∧
    update_signers wEx 1 [1, 2] 1 =
      .ok { wEx with signers := [1, 2], threshold := 1 } :=
  ⟨⟨rfl, by decide, by decide, by decide, by decide, rfl⟩,
   (update_signers_auth wEx 2 [1, 2] 1 rfl (by decide) (by decide)).1 (by decide),
   (update_signers_auth wEx 1 [1, 2] 1 rfl (by decide) (by decide)).2 (by decide) rfl⟩

/-- Helper: when the member scan of `delegate_vote` succeeds, the first member
record matching the delegator carries the new delegate in the updated list. -/
theorem setDelegate_findDelegate (dlg dle : Pubkey) :
    ∀ ms ms2 : List Member, setDelegate ms dlg dle = some ms2 →
      findDelegate ms2 dlg = some (some dle) := by
  intro ms
  induction ms with
  | nil =>
    intro ms2 h
    simp [setDelegate] at h
  | cons m rest ih =>
    intro ms2 h
    simp only [setDelegate] at h
    by_cases hm : m.address = dlg
    · rw [if_pos hm, Option.some.injEq] at h
      subst h
      simp [findDelegate, hm]
    · rw [if_neg hm] at h
      cases hr : setDelegate rest dlg dle with
      | none =>
        rw [hr] at h
        exact Option.noConfusion h
      | some tail =>
        rw [hr] at h
        simp only [Option.map_some'] at h
        rw [Option.some.injEq] at h
        subst h
        simpa [findDelegate, hm] using ih tail hr

/-- C9: after a successful `delegate_vote` by signer A naming delegate X, the
first member record for A carries `delegate = some X`, yet a subsequent
`approve_proposal` by X — when X is not itself in the signers list — fails
with NotAuthorized on any Pending, unexpired proposal: delegation is recorded
but grants no voting authority. -/
theorem delegation_recorded_not_honored (w w2 : WalletConfig) (A X : Pubkey)
    (p : Proposal) (now : Int)
    (hdv : delegate_vote w A X = .ok w2)
    (hX : X ∉ w.signers)
    (hp : p.status = ProposalStatus.Pending) (he : now < p.expiration) :
    findDelegate w2.members A = some (some X) ∧
    approve_proposal w2 p X now = .error MultisigError.NotAuthorized := by
  unfold delegate_vote at hdv
  split_ifs at hdv with g1 g2
  cases hms : setDelegate w.members A X with
  | none =>
    exact Except.noConfusion (by simpa only [hms] using hdv)
  | some ms =>
    simp only [hms, Except.ok.injEq] at hdv
    subst hdv
    constructor
    · exact setDelegate_findDelegate A X w.members ms hms
    · simp [approve_proposal, g1, hp, he, hX]

/-- Wallet obtained from `wEx` after signer 1 delegates to 9, used by the C9
witness. -/
def wDel : WalletConfig :=
  { wEx with members :=
      [{ address := 1, role := MemberRole.Member, delegate := some 9, is_active := true },
       { address := 2, role := MemberRole.Member, delegate := none, is_active := true },
       { address := 3, role := MemberRole.Member, delegate := none, is_active := true }] }

/-- Witness for C9: signer 1 of `wEx` delegates to 9; 9 still cannot approve
`pEx`. -/
theorem delegation_recorded_not_honored_witness :
    (delegate_vote wEx 1 9 = .ok wDel ∧ (9 : Pubkey) ∉ wEx.signers ∧
     pEx.status = ProposalStatus.Pending ∧ (0 : Int) < pEx.expiration) ∧
    findDelegate wDel.members 1 = some (some 9) ∧
    approve_proposal wDel pEx 9 0 = .error MultisigError.NotAuthorized :=
  ⟨⟨by decide, by decide, rfl, by decide⟩,
   delegation_recorded_not_honored wEx wDel 1 9 pEx 0 (by decide) (by decide)
     rfl (by decide)⟩

/-- C10: `initialize_wallet` sets `is_active` to true, every other operation
preserves the flag, and for an active wallet — every wallet the program can
create — the WalletInactive branch of every operation is unreachable. -/
theorem is_active_preserved :
    (∀ a s t pt sl sp now w, initWallet a s t pt sl sp now = .ok w →
      w.is_active = true) ∧
    (∀ w wk pr d c ins e now w2 p,
      add_proposal w wk pr d c ins e now = .ok (w2, p) →
      w2.is_active = w.is_active) ∧
    (∀ w a ns nt w2, update_signers w a ns nt = .ok w2 →
      w2.is_active = w.is_active) ∧
    (∀ w a nl np now w2, set_spending_limits w a nl np now = .ok w2 →
      w2.is_active = w.is_active) ∧
    (∀ w dlg dle w2, delegate_vote w dlg dle = .ok w2 →
      w2.is_active = w.is_active) ∧
    (∀ w wk pr d c ins e now, w.is_active = true →
      add_proposal w wk pr d c ins e now ≠ .error MultisigError.WalletInactive) ∧
    (∀ w p a now, w.is_active = true →
      approve_proposal w p a now ≠ .error MultisigError.WalletInactive) ∧
    (∀ w p now, w.is_active = true →
      execute_proposal w p now ≠ .error MultisigError.WalletInactive) ∧
    (∀ w a ns nt, w.is_active = true →
      update_signers w a ns nt ≠ .error MultisigError.WalletInactive) ∧
    (∀ w a nl np now, w.is_active = true →
      set_spending_limits w a nl np now ≠ .error MultisigError.WalletInactive) ∧
    (∀ w dlg dle, w.is_active = true →
      delegate_vote w dlg dle ≠ .error MultisigError.WalletInactive) ∧
    (∀ w cl ins, w.is_active = true →
      emergency_override w cl ins ≠ .error MultisigError.WalletInactive) := by
  refine ⟨?_, ?_, ?_, ?_, ?_, ?_, ?_, ?_, ?_, ?_, ?_, ?_⟩
  · intro a s t pt sl sp now w h
    unfold initWallet at h
    split_ifs at h
    rw [Except.ok.injEq] at h
    subst h
    rfl
  · intro w wk pr d c ins e now w2 p h
    unfold add_proposal at h
    split_ifs at h
    rw [Except.ok.injEq, Prod.mk.injEq] at h
    obtain ⟨hw2, hp2⟩ := h
    subst hw2
    rfl
  · intro w a ns nt w2 h
    unfold update_signers at h
    split_ifs at h
    rw [Except.ok.injEq] at h
    subst h
    rfl
  · intro w a nl np now w2 h
    unfold set_spending_limits at h
    split_ifs at h
    rw [Except.ok.injEq] at h
    subst h
    rfl
  · intro w dlg dle w2 h
    unfold delegate_vote at h
    split_ifs at h
    cases hms : setDelegate w.members dlg dle with
    | none => exact Except.noConfusion (by simpa only [hms] using h)
    | some ms =>
      simp only [hms, Except.ok.injEq] at h
      subst h
      rfl
  · intro w wk pr d c ins e now h hc
    simp only [add_proposal] at hc
    split_ifs at hc <;> simp_all
  · intro w p a now h hc
    simp only [approve_proposal] at hc
    split_ifs at hc <;> simp_all
  · intro w p now h hc
    simp only [execute_proposal] at hc
    split_ifs at hc <;> simp_all
  · intro w a ns nt h hc
    simp only [update_signers] at hc
    split_ifs at hc <;> simp_all
  · intro w a nl np now h hc
    simp only [set_spending_limits] at hc
    split_ifs at hc <;> simp_all
  · intro w dlg dle h hc
    simp only [delegate_vote] at hc
    split_ifs at hc <;>
      cases hms : setDelegate w.members dlg dle <;> simp_all [hms]
  · intro w cl ins h hc
    simp only [emergency_override] at hc
    split_ifs at hc <;> simp_all

/-- Witness for C10: the creation producing `wEx` stamps it active, and an
active wallet never triggers WalletInactive on approval. -/
theorem is_active_preserved_witness :
    initWallet 1 [1, 2, 3] 2 3600 1000 86400 0 = .ok wEx ∧
    wEx.is_active = true ∧
    approve_proposal wEx pEx 3 0 ≠ .error MultisigError.WalletInactive :=
  ⟨by decide,
   is_active_preserved.1 1 [1, 2, 3] 2 3600 1000 86400 0 wEx (by decide),
   is_active_preserved.2.2.2.2.2.2.1 wEx pEx 3 0 rfl⟩
